import Mathlib

/-!
Shallow embedding of webhook_push.py, a Docker container monitoring agent
that samples per-container resource statistics, evaluates alert
thresholds, aggregates a snapshot, and pushes it to a webhook.

Conventions of the embedding:
  the Python floats that occur in this program are modelled as exact
  rationals; the one-decimal formatting and the builtin round with one
  decimal both round half to even, which is what Python does on the
  exactly representable values reached in this development; dictionary
  keys that the source reads with a default are modelled as Option
  fields; dictionary keys that may be absent from a produced record are
  modelled as Option fields of the record.
-/

namespace WebhookPush

/-- Round a rational to the nearest integer, ties to even: the rounding
of Python float formatting and of the builtin round. -/
def roundHalfEven (q : ℚ) : ℤ :=
  if Int.fract q < 1/2 then ⌊q⌋
  else if 1/2 < Int.fract q then ⌊q⌋ + 1
  else if 2 ∣ ⌊q⌋ then ⌊q⌋ else ⌊q⌋ + 1

/-- Render a nonnegative count of tenths as a decimal string with
exactly one digit after the point. -/
def renderTenths (n : ℕ) : String :=
  toString (n / 10) ++ "." ++ toString (n % 10)

/-- One-decimal fixed-point rendering of a rational, as Python renders a
float with one decimal digit. -/
def fmt1 (q : ℚ) : String :=
  if roundHalfEven (q * 10) < 0 then "-" ++ renderTenths (-(roundHalfEven (q * 10))).toNat
  else renderTenths (roundHalfEven (q * 10)).toNat

/-- Python round with one decimal: the value rounded to one decimal
place. -/
def round1 (q : ℚ) : ℚ :=
  (roundHalfEven (q * 10) : ℚ) / 10

/-- Loop body of format_bytes, webhook_push.py lines 48 to 52: walk the
unit list, dividing by 1024 whenever the value is at least 1024; after
the last listed unit fall through to TB. -/
def format_bytes_go (v : ℚ) : List String → String
  | [] => fmt1 v ++ "TB"
  | u :: us => if v < 1024 then fmt1 v ++ u else format_bytes_go (v / 1024) us

/-- format_bytes, webhook_push.py lines 46 to 52. -/
def format_bytes (bytes_value : ℚ) : String :=
  format_bytes_go bytes_value ["B", "KB", "MB", "GB"]

/-- Raw counters read inside the try block of get_container_stats,
webhook_push.py lines 60 to 89: the two successive stats snapshots taken
100 ms apart.  Fields read with a dictionary default are Option values;
a network interface carries optional rx and tx byte counters. -/
structure RawSample where
  total_usage1 : ℤ
  total_usage2 : ℤ
  system_cpu_usage1 : ℤ
  system_cpu_usage2 : ℤ
  online_cpus : Option ℕ
  percpu_usage : Option (List ℤ)
  memory_usage : Option ℤ
  memory_limit : Option ℤ
  networks : Option (List (Option ℤ × Option ℤ))

/-- Number of CPUs, webhook_push.py lines 73 to 74: online_cpus if
present, else the length of percpu_usage, whose dictionary default is
the one-element list. -/
def num_cpus_of (s : RawSample) : ℕ :=
  match s.online_cpus with
  | some n => n
  | none => (s.percpu_usage.getD [1]).length

/-- CPU percentage, webhook_push.py lines 65 to 76: zero unless the
system delta is positive and the container delta nonnegative. -/
def cpu_percent_of (s : RawSample) : ℚ :=
  let cpu_delta := s.total_usage2 - s.total_usage1
  let system_delta := s.system_cpu_usage2 - s.system_cpu_usage1
  if 0 < system_delta ∧ 0 ≤ cpu_delta then
    ((cpu_delta : ℚ) / (system_delta : ℚ)) * (num_cpus_of s) * 100
  else 0

/-- Memory percentage, webhook_push.py lines 79 to 81: usage defaults to
0, limit defaults to 1, and the ratio is taken only for a positive
limit. -/
def mem_percent_of (s : RawSample) : ℚ :=
  let usage := s.memory_usage.getD 0
  let limit := s.memory_limit.getD 1
  if 0 < limit then ((usage : ℚ) / (limit : ℚ)) * 100 else 0

/-- Received bytes summed over all reported interfaces, webhook_push.py
lines 84 to 89. -/
def network_rx_of (s : RawSample) : ℤ :=
  ((s.networks.getD []).map (fun p => p.1.getD 0)).sum

/-- Transmitted bytes summed over all reported interfaces,
webhook_push.py lines 84 to 89. -/
def network_tx_of (s : RawSample) : ℤ :=
  ((s.networks.getD []).map (fun p => p.2.getD 0)).sum

/-- The dictionary returned by get_container_stats.  The error return of
lines 113 to 118 carries no memory_usage, network_rx or network_tx keys,
hence those fields are Option values. -/
structure StatsResult where
  cpu_percent : ℚ
  memory_percent : ℚ
  memory_usage : Option String
  network_rx : Option String
  network_tx : Option String
  has_alert : Bool
  alert_messages : List String

/-- get_container_stats, webhook_push.py lines 55 to 118.  The sample
argument is none when any error occurs while reading the raw counters,
in which case the except branch of lines 112 to 118 returns the zeroed,
alert-free dictionary. -/
def get_container_stats (sample : Option RawSample)
    (cpu_threshold memory_threshold : ℤ) : StatsResult :=
  match sample with
  | none =>
      { cpu_percent := 0, memory_percent := 0, memory_usage := none,
        network_rx := none, network_tx := none,
        has_alert := false, alert_messages := [] }
  | some s =>
      let cpu_percent := cpu_percent_of s
      let memory_percent := mem_percent_of s
      let alerts1 : List String :=
        if (cpu_threshold : ℚ) ≤ cpu_percent then
          ["High CPU usage: " ++ fmt1 cpu_percent ++ "%"]
        else []
      let has_alert1 : Bool := if (cpu_threshold : ℚ) ≤ cpu_percent then true else false
      let alerts2 : List String :=
        if (memory_threshold : ℚ) ≤ memory_percent then
          alerts1 ++ ["High memory usage: " ++ fmt1 memory_percent ++ "%"]
        else alerts1
      let has_alert2 : Bool :=
        if (memory_threshold : ℚ) ≤ memory_percent then true else has_alert1
      { cpu_percent := round1 cpu_percent
      , memory_percent := round1 memory_percent
      , memory_usage := some (format_bytes ((s.memory_usage.getD 0 : ℤ) : ℚ))
      , network_rx := some (format_bytes ((network_rx_of s : ℤ) : ℚ))
      , network_tx := some (format_bytes ((network_tx_of s : ℤ) : ℚ))
      , has_alert := has_alert2
      , alert_messages := alerts2 }

/-- Engine metadata for one container as read in collect_docker_data,
webhook_push.py lines 248 to 263: attributes, tags, and, for a running
container, the formatted uptime string (wall-clock dependent, so
supplied as an input) and the raw sample, none when sampling failed. -/
structure ContainerIn where
  short_id : String
  name : String
  status : String
  image_tags : List String
  image_short_id : String
  restart_count : Option ℤ
  uptime_str : String
  sample : Option RawSample

/-- One entry of the containers list in the published snapshot,
webhook_push.py lines 252 to 276.  The uptime key is present only for a
running container; the formatted memory and network keys are present
only when sampling succeeded. -/
structure ContainerRecord where
  id : String
  name : String
  status : String
  image : String
  restart_count : ℤ
  uptime : Option String
  cpu_percent : ℚ
  memory_percent : ℚ
  memory_usage : Option String
  network_rx : Option String
  network_tx : Option String
  has_alert : Bool
  alert_messages : List String

/-- Per-container record assembly, webhook_push.py lines 248 to 276: a
running container gets uptime and sampled statistics, any other status
gets the zeroed alert-free update of lines 269 to 274. -/
def build_container_info (cpu_threshold memory_threshold : ℤ) (c : ContainerIn) :
    ContainerRecord :=
  let stats :=
    if c.status = "running" then get_container_stats c.sample cpu_threshold memory_threshold
    else
      { cpu_percent := 0, memory_percent := 0, memory_usage := none,
        network_rx := none, network_tx := none,
        has_alert := false, alert_messages := [] }
  { id := c.short_id
  , name := c.name
  , status := c.status
  , image := match c.image_tags with | [] => c.image_short_id | t :: _ => t
  , restart_count := c.restart_count.getD 0
  , uptime := if c.status = "running" then some c.uptime_str else none
  , cpu_percent := stats.cpu_percent
  , memory_percent := stats.memory_percent
  , memory_usage := stats.memory_usage
  , network_rx := stats.network_rx
  , network_tx := stats.network_tx
  , has_alert := stats.has_alert
  , alert_messages := stats.alert_messages }

/-- Comparison used to model Python list.sort with a key and a reverse
flag: a stable sort ordered ascending by the key, or descending when the
flag is set. -/
def keyLe {β : Type} [LinearOrder β] (desc : Bool) (k : ContainerRecord → β)
    (a b : ContainerRecord) : Bool :=
  match desc with
  | true => decide (k b ≤ k a)
  | false => decide (k a ≤ k b)

/-- Sorting step of collect_docker_data, webhook_push.py lines 278 to
287.  Python list.sort is a stable sort; a stable sort under a total
transitive comparison has a unique result, given here by List.mergeSort,
which is stable and sorted.  An unrecognized sort key leaves the list
unchanged. -/
def sort_records (sort_by sort_order : String) (l : List ContainerRecord) :
    List ContainerRecord :=
  let reverse : Bool := sort_order == "desc"
  if sort_by = "cpu" then l.mergeSort (keyLe reverse (·.cpu_percent))
  else if sort_by = "memory" then l.mergeSort (keyLe reverse (·.memory_percent))
  else if sort_by = "name" then l.mergeSort (keyLe reverse (·.name))
  else if sort_by = "status" then l.mergeSort (keyLe reverse (·.status))
  else l

/-- Engine and host counters read in collect_docker_data, webhook_push.py
lines 241 and 292 to 299: the client info dictionary and the two psutil
host readings, supplied as inputs. -/
structure SystemIn where
  server_version : Option String
  containers_total : Option ℤ
  containers_running : Option ℤ
  containers_paused : Option ℤ
  containers_stopped : Option ℤ
  host_cpu_percent : ℚ
  host_mem_used : ℤ
  host_mem_total : ℤ

/-- The system dictionary of the published snapshot, webhook_push.py
lines 292 to 300. -/
structure SystemSnapshot where
  docker_version : String
  containers_total : ℤ
  containers_running : ℤ
  containers_paused : ℤ
  containers_stopped : ℤ
  cpu_percent : ℚ
  memory_percent : ℚ

/-- Assembly of the system dictionary, webhook_push.py lines 292 to
300. -/
def build_system (info : SystemIn) : SystemSnapshot :=
  { docker_version := info.server_version.getD "unknown"
  , containers_total := info.containers_total.getD 0
  , containers_running := info.containers_running.getD 0
  , containers_paused := info.containers_paused.getD 0
  , containers_stopped := info.containers_stopped.getD 0
  , cpu_percent := round1 info.host_cpu_percent
  , memory_percent := round1 ((info.host_mem_used : ℚ) / (info.host_mem_total : ℚ) * 100) }

/-- The published snapshot, webhook_push.py lines 290 to 302. -/
structure Snapshot where
  containers : List ContainerRecord
  system : SystemSnapshot
  last_update : String

/-- Configuration values consumed by collect_docker_data,
webhook_push.py lines 229 to 235. -/
structure Config where
  cpu_threshold : ℤ
  memory_threshold : ℤ
  show_stopped : Bool
  sort_by : String
  sort_order : String

/-- collect_docker_data, webhook_push.py lines 227 to 302: build one
record per enumerated container, sort by the configured key and order,
and attach the system counters and a timestamp. -/
def collect_docker_data (config : Config) (containers_list : List ContainerIn)
    (info : SystemIn) (now : String) : Snapshot :=
  let containers_data :=
    containers_list.map (build_container_info config.cpu_threshold config.memory_threshold)
  { containers := sort_records config.sort_by config.sort_order containers_data
  , system := build_system info
  , last_update := now }

/-- Outcome of the HTTP POST in push_to_webhook: the final response
status received, or a transport-level failure (timeout, connection
refused, DNS failure), all of which requests raises as
RequestException. -/
inductive HttpOutcome where
  | response (status : ℕ)
  | transportError (msg : String)

/-- One call to requests.post as observed by the caller: the serialized
top-level body and the boolean result of push_to_webhook. -/
structure PostCall (α : Type) where
  body : List (String × α)
  ok : Bool

/-- Predicate of response.raise_for_status, which raises HTTPError
exactly for status codes 400 through 599. -/
def raise_for_status_fails (status : ℕ) : Bool :=
  decide (400 ≤ status ∧ status < 600)

/-- push_to_webhook, webhook_push.py lines 305 to 321: wrap the data in
a merge_variables envelope, POST it, and return true unless the request
raised, where raise_for_status turns a 4xx or 5xx response into a raise
and every transport failure raises as well. -/
def push_to_webhook {α : Type} (data : α) (outcome : HttpOutcome) : PostCall α :=
  { body := [("merge_variables", data)]
  , ok :=
      match outcome with
      | .response s => !(raise_for_status_fails s)
      | .transportError _ => false }

/-- Minimal JSON-like values, used to state the shape of the error
heartbeat literal of webhook_push.py lines 437 to 441. -/
inductive JVal where
  | null
  | str (s : String)
  | arr (elems : List JVal)
  | obj (fields : List (String × JVal))

/-- What one tick of the main loop observes, webhook_push.py lines 410
to 448: a collected snapshot, a docker.errors.DockerException with its
message, or any other exception. -/
inductive TickData where
  | ok (s : Snapshot)
  | dockerError (msg : String)
  | otherError

/-- One payload handed to push_to_webhook by the loop. -/
inductive Published where
  | snap (s : Snapshot)
  | err (j : JVal)

/-- The error heartbeat literal of webhook_push.py lines 437 to 441. -/
def error_data (msg : String) : JVal :=
  JVal.obj
    [ ("error", JVal.obj [("message", JVal.str ("Docker connection failed: " ++ msg))])
    , ("containers", JVal.arr [])
    , ("system", JVal.obj []) ]

/-- Payloads pushed during one tick of the loop body, webhook_push.py
lines 410 to 448: a snapshot on success, exactly the error heartbeat on
a DockerException, nothing on any other exception. -/
def run_tick (t : TickData) : List Published :=
  match t with
  | .ok s => [Published.snap s]
  | .dockerError m => [Published.err (error_data m)]
  | .otherError => []

/-- The while loop of main, webhook_push.py lines 409 to 457, over a
trace of tick observations: each tick publishes its payloads, and the
loop continues with the remaining ticks exactly when loop mode is set,
otherwise it breaks after the first tick. -/
def main_loop (loopMode : Bool) (ticks : List TickData) : List (List Published) :=
  match ticks with
  | [] => []
  | t :: ts => run_tick t :: (if loopMode then main_loop loopMode ts else [])


/-- Concrete sample matching the spec example: container delta 200,
system delta 1000, four online CPUs. -/
def s80 : RawSample :=
  { total_usage1 := 0, total_usage2 := 200,
    system_cpu_usage1 := 0, system_cpu_usage2 := 1000,
    online_cpus := some 4, percpu_usage := none,
    memory_usage := none, memory_limit := none, networks := none }

/-- Concrete sample whose unrounded CPU percentage is 79.96: container
delta 1999, system delta 10000, four online CPUs. -/
def s79 : RawSample :=
  { total_usage1 := 0, total_usage2 := 1999,
    system_cpu_usage1 := 0, system_cpu_usage2 := 10000,
    online_cpus := some 4, percpu_usage := none,
    memory_usage := none, memory_limit := none, networks := none }

/-- Concrete sample with zero CPU and memory percentages. -/
def s0 : RawSample :=
  { total_usage1 := 0, total_usage2 := 0,
    system_cpu_usage1 := 0, system_cpu_usage2 := 1000,
    online_cpus := some 1, percpu_usage := none,
    memory_usage := none, memory_limit := none, networks := none }

/-- Concrete sample with no online_cpus but a three-entry per-CPU
list. -/
def s_pc : RawSample :=
  { total_usage1 := 0, total_usage2 := 0,
    system_cpu_usage1 := 0, system_cpu_usage2 := 0,
    online_cpus := none, percpu_usage := some [5, 6, 7],
    memory_usage := none, memory_limit := none, networks := none }

/-- Concrete sample with neither online_cpus nor percpu_usage. -/
def s_n1 : RawSample :=
  { total_usage1 := 0, total_usage2 := 0,
    system_cpu_usage1 := 0, system_cpu_usage2 := 0,
    online_cpus := none, percpu_usage := none,
    memory_usage := none, memory_limit := none, networks := none }

/-- Concrete configuration with the default thresholds. -/
def cfg0 : Config :=
  { cpu_threshold := 80, memory_threshold := 85, show_stopped := false,
    sort_by := "cpu", sort_order := "desc" }

/-- Concrete system counters. -/
def si0 : SystemIn :=
  { server_version := none, containers_total := none,
    containers_running := none, containers_paused := none,
    containers_stopped := none, host_cpu_percent := 0,
    host_mem_used := 0, host_mem_total := 1 }

/-- Concrete running container whose sampling succeeded. -/
def cOk : ContainerIn :=
  { short_id := "aaa", name := "web", status := "running",
    image_tags := ["img:latest"], image_short_id := "sha",
    restart_count := some 0, uptime_str := "1m", sample := some s0 }

/-- Concrete running container whose sampling failed. -/
def cBad : ContainerIn :=
  { short_id := "bbb", name := "db", status := "running",
    image_tags := [], image_short_id := "sha2",
    restart_count := none, uptime_str := "2m", sample := none }

/-- Record with a given name and CPU percentage, for the sorting
examples. -/
def exRec (nm : String) (cpu : ℚ) : ContainerRecord :=
  { id := nm, name := nm, status := "running", image := "img",
    restart_count := 0, uptime := some "1m",
    cpu_percent := cpu, memory_percent := 0, memory_usage := none,
    network_rx := none, network_tx := none,
    has_alert := false, alert_messages := [] }

theorem roundHalfEven_intCast (n : ℤ) : roundHalfEven (n : ℚ) = n := by
  unfold roundHalfEven
  rw [Int.fract_intCast, Int.floor_intCast, if_pos (by norm_num : (0:ℚ) < 1/2)]

theorem roundHalfEven_of_lt_half (k : ℤ) (q : ℚ) (h1 : (k:ℚ) ≤ q) (h2 : q < (k:ℚ) + 1/2) :
    roundHalfEven q = k := by
  have hf : ⌊q⌋ = k := by
    rw [Int.floor_eq_iff]
    exact ⟨h1, by linarith⟩
  have hfr : Int.fract q < 1/2 := by
    simp only [Int.fract, hf]
    linarith
  unfold roundHalfEven
  rw [if_pos hfr, hf]

theorem roundHalfEven_of_gt_half (k : ℤ) (q : ℚ) (h1 : (k:ℚ) + 1/2 < q) (h2 : q < (k:ℚ) + 1) :
    roundHalfEven q = k + 1 := by
  have hf : ⌊q⌋ = k := by
    rw [Int.floor_eq_iff]
    exact ⟨by linarith, by linarith⟩
  have h3 : ¬ Int.fract q < 1/2 := by
    simp only [Int.fract, hf, not_lt]
    linarith
  have h4 : 1/2 < Int.fract q := by
    simp only [Int.fract, hf]
    linarith
  unfold roundHalfEven
  rw [if_neg h3, if_pos h4, hf]

theorem fmt1_eval (q : ℚ) (n : ℕ) (h : roundHalfEven (q * 10) = (n : ℤ)) :
    fmt1 q = renderTenths n := by
  unfold fmt1
  rw [h, if_neg (not_lt.mpr (Int.natCast_nonneg n)), Int.toNat_natCast]

theorem fmt1_1023 : fmt1 1023 = "1023.0" := by
  rw [fmt1_eval 1023 10230 ?_]
  · rfl
  · rw [show ((1023:ℚ) * 10) = ((10230:ℤ) : ℚ) by norm_num, roundHalfEven_intCast]
    norm_num

theorem fmt1_one : fmt1 1 = "1.0" := by
  rw [fmt1_eval 1 10 ?_]
  · rfl
  · rw [show ((1:ℚ) * 10) = ((10:ℤ) : ℚ) by norm_num, roundHalfEven_intCast]
    norm_num

theorem fmt1_threeHalves : fmt1 (3/2) = "1.5" := by
  rw [fmt1_eval (3/2) 15 ?_]
  · rfl
  · rw [show ((3:ℚ)/2 * 10) = ((15:ℤ) : ℚ) by norm_num, roundHalfEven_intCast]
    norm_num

theorem fmt1_1024 : fmt1 1024 = "1024.0" := by
  rw [fmt1_eval 1024 10240 ?_]
  · rfl
  · rw [show ((1024:ℚ) * 10) = ((10240:ℤ) : ℚ) by norm_num, roundHalfEven_intCast]
    norm_num

theorem format_bytes_cases (b : ℚ) :
    format_bytes b =
      if b < 1024 then fmt1 b ++ "B"
      else if b < 1024 ^ 2 then fmt1 (b / 1024) ++ "KB"
      else if b < 1024 ^ 3 then fmt1 (b / 1024 ^ 2) ++ "MB"
      else if b < 1024 ^ 4 then fmt1 (b / 1024 ^ 3) ++ "GB"
      else fmt1 (b / 1024 ^ 4) ++ "TB" := by
  have c0 : (0:ℚ) < 1024 := by norm_num
  have e2 : b / 1024 / 1024 = b / 1024 ^ 2 := by
    rw [div_div]; norm_num
  have e3 : b / 1024 / 1024 / 1024 = b / 1024 ^ 3 := by
    rw [div_div, div_div]; norm_num
  have e4 : b / 1024 / 1024 / 1024 / 1024 = b / 1024 ^ 4 := by
    rw [div_div, div_div, div_div]; norm_num
  have d1 : b / 1024 < 1024 ↔ b < 1024 ^ 2 := by
    rw [div_lt_iff c0]; norm_num
  have d2 : b / 1024 ^ 2 < 1024 ↔ b < 1024 ^ 3 := by
    rw [div_lt_iff (by norm_num : (0:ℚ) < 1024 ^ 2)]; norm_num
  have d3 : b / 1024 ^ 3 < 1024 ↔ b < 1024 ^ 4 := by
    rw [div_lt_iff (by norm_num : (0:ℚ) < 1024 ^ 3)]; norm_num
  simp only [format_bytes, format_bytes_go]
  rw [e4, e3, e2]
  by_cases h1 : b < 1024
  · rw [if_pos h1, if_pos h1]
  · rw [if_neg h1, if_neg h1]
    by_cases h2 : b < 1024 ^ 2
    · rw [if_pos (d1.mpr h2), if_pos h2]
    · rw [if_neg (fun hc => h2 (d1.mp hc)), if_neg h2]
      by_cases h3 : b < 1024 ^ 3
      · rw [if_pos (d2.mpr h3), if_pos h3]
      · rw [if_neg (fun hc => h3 (d2.mp hc)), if_neg h3]
        by_cases h4 : b < 1024 ^ 4
        · rw [if_pos (d3.mpr h4), if_pos h4]
        · rw [if_neg (fun hc => h4 (d3.mp hc)), if_neg h4]

/-- C1 (amended): format_bytes divides the value by 1024 once for each
unit B, KB, MB, GB for which the running value is still at least 1024,
then renders the final value with exactly one decimal digit immediately
followed by the reached unit, falling through to TB after the four
listed units regardless of further overflow.  Concretely format_bytes
of 1023 is "1023.0B", of 1024 is "1.0KB", of 1536 is "1.5KB", of 1024
to the fourth power is "1.0TB", and of 1024 to the fifth power is
"1024.0TB". -/
theorem format_bytes_spec :
    (∀ b : ℚ, format_bytes b =
      if b < 1024 then fmt1 b ++ "B"
      else if b < 1024 ^ 2 then fmt1 (b / 1024) ++ "KB"
      else if b < 1024 ^ 3 then fmt1 (b / 1024 ^ 2) ++ "MB"
      else if b < 1024 ^ 4 then fmt1 (b / 1024 ^ 3) ++ "GB"
      else fmt1 (b / 1024 ^ 4) ++ "TB")
    ∧ format_bytes 1023 = "1023.0B"
    ∧ format_bytes 1024 = "1.0KB"
    ∧ format_bytes 1536 = "1.5KB"
    ∧ format_bytes (1024 ^ 4) = "1.0TB"
    ∧ format_bytes (1024 ^ 5) = "1024.0TB" := by
  refine ⟨format_bytes_cases, ?_, ?_, ?_, ?_, ?_⟩
  · rw [format_bytes_cases, if_pos (by norm_num : (1023:ℚ) < 1024), fmt1_1023]
    rfl
  · rw [format_bytes_cases, if_neg (by norm_num : ¬ (1024:ℚ) < 1024),
      if_pos (by norm_num : (1024:ℚ) < 1024 ^ 2),
      show ((1024:ℚ) / 1024) = 1 by norm_num, fmt1_one]
    rfl
  · rw [format_bytes_cases, if_neg (by norm_num : ¬ (1536:ℚ) < 1024),
      if_pos (by norm_num : (1536:ℚ) < 1024 ^ 2),
      show ((1536:ℚ) / 1024) = 3/2 by norm_num, fmt1_threeHalves]
    rfl
  · rw [format_bytes_cases, if_neg (by norm_num : ¬ (1024:ℚ) ^ 4 < 1024),
      if_neg (by norm_num : ¬ (1024:ℚ) ^ 4 < 1024 ^ 2),
      if_neg (by norm_num : ¬ (1024:ℚ) ^ 4 < 1024 ^ 3),
      if_neg (by norm_num : ¬ (1024:ℚ) ^ 4 < 1024 ^ 4),
      show ((1024:ℚ) ^ 4 / 1024 ^ 4) = 1 by norm_num, fmt1_one]
    rfl
  · rw [format_bytes_cases, if_neg (by norm_num : ¬ (1024:ℚ) ^ 5 < 1024),
      if_neg (by norm_num : ¬ (1024:ℚ) ^ 5 < 1024 ^ 2),
      if_neg (by norm_num : ¬ (1024:ℚ) ^ 5 < 1024 ^ 3),
      if_neg (by norm_num : ¬ (1024:ℚ) ^ 5 < 1024 ^ 4),
      show ((1024:ℚ) ^ 5 / 1024 ^ 4) = 1024 by norm_num, fmt1_1024]
    rfl

/-- C1 counterexample: the claim asserts that format_bytes of 1024 to
the fourth power is "1024.0TB", but the code divides once for each of
the four listed units before falling through to TB, so the result is
"1.0TB". -/
theorem format_bytes_pow4_counterexample :
    format_bytes ((1024:ℚ) ^ 4) = "1.0TB" ∧ format_bytes ((1024:ℚ) ^ 4) ≠ "1024.0TB" := by
  have h : format_bytes ((1024:ℚ) ^ 4) = "1.0TB" := by
    rw [format_bytes_cases, if_neg (by norm_num : ¬ (1024:ℚ) ^ 4 < 1024),
      if_neg (by norm_num : ¬ (1024:ℚ) ^ 4 < 1024 ^ 2),
      if_neg (by norm_num : ¬ (1024:ℚ) ^ 4 < 1024 ^ 3),
      if_neg (by norm_num : ¬ (1024:ℚ) ^ 4 < 1024 ^ 4),
      show ((1024:ℚ) ^ 4 / 1024 ^ 4) = 1 by norm_num, fmt1_one]
    rfl
  exact ⟨h, by rw [h]; decide⟩


theorem fmt1_zero : fmt1 0 = "0.0" := by
  rw [fmt1_eval 0 0 ?_]
  · rfl
  · rw [show ((0:ℚ) * 10) = ((0:ℤ) : ℚ) by norm_num, roundHalfEven_intCast]
    norm_num

theorem stats_msgs (s : RawSample) (t1 t2 : ℤ) :
    (get_container_stats (some s) t1 t2).alert_messages =
      (if (t1 : ℚ) ≤ cpu_percent_of s then
          ["High CPU usage: " ++ fmt1 (cpu_percent_of s) ++ "%"] else [])
        ++ (if (t2 : ℚ) ≤ mem_percent_of s then
          ["High memory usage: " ++ fmt1 (mem_percent_of s) ++ "%"] else []) := by
  simp only [get_container_stats]
  split_ifs <;> simp

theorem stats_has_alert (s : RawSample) (t1 t2 : ℤ) :
    (get_container_stats (some s) t1 t2).has_alert =
      (decide ((t1 : ℚ) ≤ cpu_percent_of s) || decide ((t2 : ℚ) ≤ mem_percent_of s)) := by
  simp only [get_container_stats]
  split_ifs <;> simp_all

theorem stats_cpu_round (s : RawSample) (t1 t2 : ℤ) :
    (get_container_stats (some s) t1 t2).cpu_percent = round1 (cpu_percent_of s) := rfl

theorem stats_mem_round (s : RawSample) (t1 t2 : ℤ) :
    (get_container_stats (some s) t1 t2).memory_percent = round1 (mem_percent_of s) := rfl

/-- C2: the CPU percentage is the ratio of the container delta to the
system delta, times the number of CPUs, times 100, exactly when the
system delta is positive and the container delta nonnegative, and zero
otherwise; the CPU count is online_cpus, falling back to the length of
the per-CPU list, falling back to one; container delta 200, system
delta 1000 and four CPUs give 80, and a zero system delta gives zero
for every container delta. -/
theorem cpu_percent_rule :
    (∀ s : RawSample,
      0 < s.system_cpu_usage2 - s.system_cpu_usage1 →
      0 ≤ s.total_usage2 - s.total_usage1 →
      cpu_percent_of s =
        ((s.total_usage2 - s.total_usage1 : ℤ) : ℚ)
          / ((s.system_cpu_usage2 - s.system_cpu_usage1 : ℤ) : ℚ)
          * (num_cpus_of s) * 100)
    ∧ (∀ s : RawSample,
        ¬ (0 < s.system_cpu_usage2 - s.system_cpu_usage1
            ∧ 0 ≤ s.total_usage2 - s.total_usage1) →
        cpu_percent_of s = 0)
    ∧ (∀ (s : RawSample) (n : ℕ), s.online_cpus = some n → num_cpus_of s = n)
    ∧ (∀ (s : RawSample) (l : List ℤ), s.online_cpus = none →
        s.percpu_usage = some l → num_cpus_of s = l.length)
    ∧ (∀ s : RawSample, s.online_cpus = none → s.percpu_usage = none →
        num_cpus_of s = 1)
    ∧ cpu_percent_of s80 = 80
    ∧ (∀ s : RawSample, s.system_cpu_usage2 - s.system_cpu_usage1 = 0 →
        cpu_percent_of s = 0) := by
  refine ⟨?_, ?_, ?_, ?_, ?_, ?_, ?_⟩
  · intro s h1 h2
    simp only [cpu_percent_of]
    rw [if_pos ⟨h1, h2⟩]
  · intro s h
    simp only [cpu_percent_of]
    rw [if_neg h]
  · intro s n h
    simp [num_cpus_of, h]
  · intro s l h1 h2
    simp [num_cpus_of, h1, h2]
  · intro s h1 h2
    simp [num_cpus_of, h1, h2]
  · norm_num [cpu_percent_of, num_cpus_of, s80]
  · intro s h
    simp only [cpu_percent_of]
    rw [if_neg]
    rintro ⟨h1, -⟩
    rw [h] at h1
    exact lt_irrefl 0 h1

/-- C2 witness: the fallback chain of the CPU count and the zero system
delta case, evaluated at concrete samples. -/
theorem cpu_percent_rule_witness :
    num_cpus_of s_pc = 3 ∧ num_cpus_of s_n1 = 1 ∧ cpu_percent_of s_n1 = 0 :=
  ⟨cpu_percent_rule.2.2.2.1 s_pc [5, 6, 7] rfl rfl,
   cpu_percent_rule.2.2.2.2.1 s_n1 rfl rfl,
   cpu_percent_rule.2.2.2.2.2.2 s_n1 rfl⟩

/-- C4: every produced container record, whether from a running
container with successful sampling, a running container whose sampling
failed, or a non-running container, has has_alert true exactly when its
alert message list is non-empty. -/
theorem has_alert_iff_messages (cpu_threshold memory_threshold : ℤ) (c : ContainerIn) :
    (build_container_info cpu_threshold memory_threshold c).has_alert
      = decide (0 < (build_container_info cpu_threshold memory_threshold c).alert_messages.length) := by
  simp only [build_container_info]
  split_ifs with h
  · cases c.sample with
    | none => rfl
    | some s =>
      rw [stats_has_alert, stats_msgs]
      by_cases h1 : (cpu_threshold : ℚ) ≤ cpu_percent_of s <;>
        by_cases h2 : (memory_threshold : ℚ) ≤ mem_percent_of s <;>
        simp [h1, h2]
  · rfl

/-- C5: the CPU alert fires exactly when the unrounded CPU percentage
reaches the CPU threshold and the memory alert exactly when the
unrounded memory percentage reaches the memory threshold, both
non-strict; the two alerts are independent, may both fire, and when
both fire the CPU message precedes the memory message. -/
theorem alert_rule (s : RawSample) (cpu_threshold memory_threshold : ℤ) :
    ((get_container_stats (some s) cpu_threshold memory_threshold).alert_messages =
      (if (cpu_threshold : ℚ) ≤ cpu_percent_of s then
          ["High CPU usage: " ++ fmt1 (cpu_percent_of s) ++ "%"] else [])
        ++ (if (memory_threshold : ℚ) ≤ mem_percent_of s then
          ["High memory usage: " ++ fmt1 (mem_percent_of s) ++ "%"] else []))
    ∧ ((cpu_threshold : ℚ) ≤ cpu_percent_of s →
        (get_container_stats (some s) cpu_threshold memory_threshold).has_alert = true)
    ∧ ((memory_threshold : ℚ) ≤ mem_percent_of s →
        (get_container_stats (some s) cpu_threshold memory_threshold).has_alert = true) := by
  refine ⟨stats_msgs s cpu_threshold memory_threshold, ?_, ?_⟩
  · intro h
    rw [stats_has_alert]
    simp [h]
  · intro h
    rw [stats_has_alert]
    simp [h]

/-- C5 witness: with both thresholds zero and a sample whose CPU and
memory percentages are exactly zero, both alerts fire, values exactly
at the threshold count, and the CPU message comes first. -/
theorem alert_rule_witness :
    (get_container_stats (some s0) 0 0).alert_messages =
      ["High CPU usage: 0.0%", "High memory usage: 0.0%"]
    ∧ (get_container_stats (some s0) 0 0).has_alert = true := by
  have hcpu : cpu_percent_of s0 = 0 := by
    norm_num [cpu_percent_of, num_cpus_of, s0]
  have hmem : mem_percent_of s0 = 0 := by
    norm_num [mem_percent_of, s0]
  have h := alert_rule s0 0 0
  constructor
  · rw [h.1, if_pos (by rw [hcpu]; norm_num), if_pos (by rw [hmem]; norm_num),
      hcpu, hmem, fmt1_zero]
    rfl
  · exact h.2.1 (by rw [hcpu]; norm_num)

/-- C10: the alert comparisons in get_container_stats use the unrounded
CPU and memory percentages while the returned record carries the values
rounded to one decimal; at a sample whose unrounded CPU percentage is
79.96 with threshold 80 the record reports a CPU percentage exactly
equal to the threshold yet carries no alert. -/
theorem threshold_uses_unrounded :
    (∀ (s : RawSample) (t1 t2 : ℤ),
      (get_container_stats (some s) t1 t2).has_alert
        = (decide ((t1 : ℚ) ≤ cpu_percent_of s) || decide ((t2 : ℚ) ≤ mem_percent_of s)))
    ∧ (∀ (s : RawSample) (t1 t2 : ℤ),
        (get_container_stats (some s) t1 t2).cpu_percent = round1 (cpu_percent_of s)
        ∧ (get_container_stats (some s) t1 t2).memory_percent = round1 (mem_percent_of s))
    ∧ (get_container_stats (some s79) 80 85).cpu_percent = 80
    ∧ (get_container_stats (some s79) 80 85).has_alert = false := by
  have hc : cpu_percent_of s79 = 1999 / 25 := by
    norm_num [cpu_percent_of, num_cpus_of, s79]
  have hm : mem_percent_of s79 = 0 := by
    norm_num [mem_percent_of, s79]
  refine ⟨stats_has_alert, fun s t1 t2 => ⟨stats_cpu_round s t1 t2, stats_mem_round s t1 t2⟩, ?_, ?_⟩
  · rw [stats_cpu_round, hc]
    have hr : roundHalfEven ((1999 / 25 : ℚ) * 10) = 800 := by
      have h8 := roundHalfEven_of_gt_half 799 ((1999 / 25 : ℚ) * 10) (by norm_num) (by norm_num)
      rw [h8]
      norm_num
    rw [round1, hr]
    norm_num
  · rw [stats_has_alert]
    have h1 : ¬ ((80 : ℤ) : ℚ) ≤ cpu_percent_of s79 := by
      rw [hc]
      norm_num
    have h2 : ¬ ((85 : ℤ) : ℚ) ≤ mem_percent_of s79 := by
      rw [hm]
      norm_num
    rw [decide_eq_false h1, decide_eq_false h2]
    rfl

theorem sort_records_perm (sb so : String) (l : List ContainerRecord) :
    (sort_records sb so l).Perm l := by
  simp only [sort_records]
  split_ifs <;> first | exact List.mergeSort_perm l _ | exact List.Perm.refl l

/-- C3: a running container whose sampling failed still appears in the
snapshot, with zeroed metrics and no alert, and every container record
of the snapshot is exactly the record built from its own input, so the
other containers are unaffected. -/
theorem sampling_failure_isolated (cfg : Config) (si : SystemIn) (now : String)
    (cs : List ContainerIn) (c : ContainerIn)
    (hmem : c ∈ cs) (hrun : c.status = "running") (hfail : c.sample = none) :
    ((build_container_info cfg.cpu_threshold cfg.memory_threshold c).cpu_percent = 0
      ∧ (build_container_info cfg.cpu_threshold cfg.memory_threshold c).memory_percent = 0
      ∧ (build_container_info cfg.cpu_threshold cfg.memory_threshold c).has_alert = false
      ∧ (build_container_info cfg.cpu_threshold cfg.memory_threshold c).alert_messages = [])
    ∧ build_container_info cfg.cpu_threshold cfg.memory_threshold c
        ∈ (collect_docker_data cfg cs si now).containers
    ∧ (collect_docker_data cfg cs si now).containers.Perm
        (cs.map (build_container_info cfg.cpu_threshold cfg.memory_threshold))
    ∧ (∀ d ∈ cs, build_container_info cfg.cpu_threshold cfg.memory_threshold d
        ∈ (collect_docker_data cfg cs si now).containers) := by
  have hperm : (collect_docker_data cfg cs si now).containers.Perm
      (cs.map (build_container_info cfg.cpu_threshold cfg.memory_threshold)) := by
    simp only [collect_docker_data]
    exact sort_records_perm _ _ _
  have hall : ∀ d ∈ cs, build_container_info cfg.cpu_threshold cfg.memory_threshold d
      ∈ (collect_docker_data cfg cs si now).containers := by
    intro d hd
    exact hperm.mem_iff.mpr (List.mem_map_of_mem _ hd)
  refine ⟨?_, hall c hmem, hperm, hall⟩
  simp only [build_container_info]
  rw [if_pos hrun, hfail]
  exact ⟨rfl, rfl, rfl, rfl⟩

/-- C3 witness: in a concrete two-container snapshot where the second
running container fails to sample, its record is zeroed and alert-free
and still appears in the snapshot. -/
theorem sampling_failure_isolated_witness :
    ((build_container_info cfg0.cpu_threshold cfg0.memory_threshold cBad).cpu_percent = 0
      ∧ (build_container_info cfg0.cpu_threshold cfg0.memory_threshold cBad).has_alert = false)
    ∧ build_container_info cfg0.cpu_threshold cfg0.memory_threshold cBad
        ∈ (collect_docker_data cfg0 [cOk, cBad] si0 "t").containers := by
  have h := sampling_failure_isolated cfg0 si0 "t" [cOk, cBad] cBad
    (List.mem_cons_of_mem _ (List.mem_cons_self _ _)) rfl rfl
  exact ⟨⟨h.1.1, h.1.2.2.1⟩, h.2.1⟩

/-- C6 (amended): push_to_webhook returns true exactly when an HTTP
response was received whose status does not make raise_for_status
raise, that is any status outside 400 to 599; every 4xx or 5xx
response and every transport-level failure returns false, and in
particular every 2xx response returns true.  Failures are reported only
through the boolean: the function is total. -/
theorem push_to_webhook_result {α : Type} (d : α) (s : ℕ) (m : String) :
    ((push_to_webhook d (HttpOutcome.response s)).ok = true ↔ ¬ (400 ≤ s ∧ s < 600))
    ∧ (push_to_webhook d (HttpOutcome.transportError m)).ok = false
    ∧ (200 ≤ s → s ≤ 299 → (push_to_webhook d (HttpOutcome.response s)).ok = true) := by
  refine ⟨?_, rfl, ?_⟩
  · simp only [push_to_webhook, raise_for_status_fails]
    simp
    omega
  · intro h1 h2
    simp [push_to_webhook, raise_for_status_fails]
    omega

/-- C6 witness: a 204 response is a success. -/
theorem push_to_webhook_result_witness :
    (200 ≤ 204 ∧ 204 ≤ 299) ∧ (push_to_webhook (0:ℕ) (HttpOutcome.response 204)).ok = true :=
  ⟨by decide, (push_to_webhook_result (0:ℕ) 204 "x").2.2 (by decide) (by decide)⟩

/-- C6 counterexample: a 304 response is not in the 2xx range, yet
push_to_webhook returns true for it, because raise_for_status raises
only for status codes 400 to 599. -/
theorem push_to_webhook_counterexample :
    (push_to_webhook (0:ℕ) (HttpOutcome.response 304)).ok = true
    ∧ ¬ (200 ≤ 304 ∧ 304 ≤ 299) := by
  exact ⟨rfl, by decide⟩

/-- C7: the serialized payload of every push has exactly one top-level
key, merge_variables, whose value is the snapshot unchanged. -/
theorem merge_variables_envelope {α : Type} (d : α) (o : HttpOutcome) :
    (push_to_webhook d o).body = [("merge_variables", d)]
    ∧ (push_to_webhook d o).body.map Prod.fst = ["merge_variables"]
    ∧ (push_to_webhook d o).body.length = 1 :=
  ⟨rfl, rfl, rfl⟩

/-- C9: in loop mode the loop handles every tick of the trace, one
publish list per tick in order; a tick that observes a DockerException
publishes exactly one payload, the error heartbeat object with an error
message, an empty containers list and an empty system object; and the
loop proceeds past such a tick to the remaining ones. -/
theorem error_heartbeat_spec (ticks : List TickData) (m : String) :
    main_loop true ticks = ticks.map run_tick
    ∧ (main_loop true ticks).length = ticks.length
    ∧ run_tick (TickData.dockerError m)
        = [Published.err (JVal.obj
            [ ("error", JVal.obj [("message", JVal.str ("Docker connection failed: " ++ m))])
            , ("containers", JVal.arr [])
            , ("system", JVal.obj []) ])] := by
  have h : main_loop true ticks = ticks.map run_tick := by
    induction ticks with
    | nil => rfl
    | cons t ts ih => simp [main_loop, ih]
  exact ⟨h, by rw [h, List.length_map], rfl⟩

theorem keyLe_trans {β : Type} [LinearOrder β] (d : Bool) (k : ContainerRecord → β) :
    ∀ a b c : ContainerRecord, keyLe d k a b → keyLe d k b c → keyLe d k a c := by
  intro a b c h1 h2
  cases d <;> simp only [keyLe, decide_eq_true_eq] at h1 h2 ⊢
  · exact le_trans h1 h2
  · exact le_trans h2 h1

theorem keyLe_total {β : Type} [LinearOrder β] (d : Bool) (k : ContainerRecord → β) :
    ∀ a b : ContainerRecord, keyLe d k a b || keyLe d k b a := by
  intro a b
  cases d <;> simp only [keyLe, Bool.or_eq_true, decide_eq_true_eq]
  · exact le_total _ _
  · exact le_total _ _

theorem keyLe_of_eq {β : Type} [LinearOrder β] (d : Bool) (k : ContainerRecord → β)
    (a b : ContainerRecord) (h : k a = k b) : keyLe d k a b := by
  cases d <;> simp [keyLe, h]

theorem sort_records_cpu (so : String) (l : List ContainerRecord) :
    sort_records "cpu" so l = l.mergeSort (keyLe (so == "desc") (·.cpu_percent)) := by
  simp [sort_records]

theorem sort_records_memory (so : String) (l : List ContainerRecord) :
    sort_records "memory" so l = l.mergeSort (keyLe (so == "desc") (·.memory_percent)) := by
  simp [sort_records]

theorem sort_records_name (so : String) (l : List ContainerRecord) :
    sort_records "name" so l = l.mergeSort (keyLe (so == "desc") (·.name)) := by
  simp [sort_records]

theorem sort_records_status (so : String) (l : List ContainerRecord) :
    sort_records "status" so l = l.mergeSort (keyLe (so == "desc") (·.status)) := by
  simp [sort_records]

theorem mergeSort_keyLe_spec {β : Type} [LinearOrder β] (d : Bool)
    (k : ContainerRecord → β) (l : List ContainerRecord) :
    (l.mergeSort (keyLe d k)).Perm l
    ∧ (l.mergeSort (keyLe d k)).Pairwise (fun a b => keyLe d k a b = true)
    ∧ (∀ a b : ContainerRecord, k a = k b →
        [a, b].Sublist l → [a, b].Sublist (l.mergeSort (keyLe d k))) := by
  refine ⟨List.mergeSort_perm l _, ?_, ?_⟩
  · exact List.sorted_mergeSort (keyLe_trans d k) (keyLe_total d k) l
  · intro a b hk hsub
    exact List.pair_sublist_mergeSort (keyLe_trans d k) (keyLe_total d k)
      (keyLe_of_eq d k a b hk) hsub

theorem sort_example :
    sort_records "cpu" "desc" [exRec "a" 10, exRec "b" 50, exRec "c" 30]
      = [exRec "b" 50, exRec "c" 30, exRec "a" 10] := by
  rw [sort_records_cpu]
  have tr := keyLe_trans true (fun r : ContainerRecord => r.cpu_percent)
  have tot := keyLe_total true (fun r : ContainerRecord => r.cpu_percent)
  have hs1 := List.sorted_mergeSort tr tot [exRec "a" 10, exRec "b" 50, exRec "c" 30]
  have hp0 : [exRec "a" 10, exRec "b" 50, exRec "c" 30].Perm
      [exRec "b" 50, exRec "c" 30, exRec "a" 10] :=
    (List.Perm.swap (exRec "b" 50) (exRec "a" 10) [exRec "c" 30]).trans
      (List.Perm.cons (exRec "b" 50) (List.Perm.swap (exRec "c" 30) (exRec "a" 10) []))
  have hp := (List.mergeSort_perm [exRec "a" 10, exRec "b" 50, exRec "c" 30]
      (keyLe true (fun r : ContainerRecord => r.cpu_percent))).trans hp0
  have k1 : keyLe true (fun r : ContainerRecord => r.cpu_percent)
      (exRec "b" 50) (exRec "c" 30) = true := by
    simp only [keyLe, exRec, decide_eq_true_eq]
    norm_num
  have k2 : keyLe true (fun r : ContainerRecord => r.cpu_percent)
      (exRec "b" 50) (exRec "a" 10) = true := by
    simp only [keyLe, exRec, decide_eq_true_eq]
    norm_num
  have k3 : keyLe true (fun r : ContainerRecord => r.cpu_percent)
      (exRec "c" 30) (exRec "a" 10) = true := by
    simp only [keyLe, exRec, decide_eq_true_eq]
    norm_num
  have hs2 : [exRec "b" 50, exRec "c" 30, exRec "a" 10].Pairwise
      (fun a b => keyLe true (fun r : ContainerRecord => r.cpu_percent) a b = true) := by
    refine List.Pairwise.cons ?_ (List.Pairwise.cons ?_ (List.pairwise_singleton _ _))
    · intro a ha
      rcases List.mem_cons.mp ha with rfl | ha2
      · exact k1
      · rcases List.mem_singleton.mp ha2 with rfl
        exact k2
    · intro a ha
      rcases List.mem_singleton.mp ha with rfl
      exact k3
  have anti : ∀ a b : ContainerRecord,
      a ∈ [exRec "a" 10, exRec "b" 50, exRec "c" 30].mergeSort
        (keyLe true (fun r : ContainerRecord => r.cpu_percent)) →
      b ∈ [exRec "b" 50, exRec "c" 30, exRec "a" 10] →
      keyLe true (fun r : ContainerRecord => r.cpu_percent) a b →
      keyLe true (fun r : ContainerRecord => r.cpu_percent) b a → a = b := by
    intro a b ha hb h1 h2
    rw [List.mem_mergeSort] at ha
    simp only [List.mem_cons, List.not_mem_nil, or_false] at ha hb
    rcases ha with rfl | rfl | rfl <;> rcases hb with rfl | rfl | rfl <;>
      first
        | rfl
        | (revert h1 h2; norm_num [keyLe, exRec])
  exact List.Perm.eq_of_sorted anti hs1 hs2 hp

/-- C8: for each of the four configured sort keys and either direction,
the sorted container list is a permutation of the input, is ordered by
the configured key in the configured direction, and preserves the input
order of any two records with equal keys; sorting CPU values 10, 50, 30
descending yields 50, 30, 10. -/
theorem sorting_spec :
    (∀ (so : String) (l : List ContainerRecord),
      (sort_records "cpu" so l).Perm l
      ∧ (sort_records "cpu" so l).Pairwise
          (fun a b => keyLe (so == "desc") (·.cpu_percent) a b = true)
      ∧ (∀ a b : ContainerRecord, a.cpu_percent = b.cpu_percent →
          [a, b].Sublist l → [a, b].Sublist (sort_records "cpu" so l)))
    ∧ (∀ (so : String) (l : List ContainerRecord),
      (sort_records "memory" so l).Perm l
      ∧ (sort_records "memory" so l).Pairwise
          (fun a b => keyLe (so == "desc") (·.memory_percent) a b = true)
      ∧ (∀ a b : ContainerRecord, a.memory_percent = b.memory_percent →
          [a, b].Sublist l → [a, b].Sublist (sort_records "memory" so l)))
    ∧ (∀ (so : String) (l : List ContainerRecord),
      (sort_records "name" so l).Perm l
      ∧ (sort_records "name" so l).Pairwise
          (fun a b => keyLe (so == "desc") (·.name) a b = true)
      ∧ (∀ a b : ContainerRecord, a.name = b.name →
          [a, b].Sublist l → [a, b].Sublist (sort_records "name" so l)))
    ∧ (∀ (so : String) (l : List ContainerRecord),
      (sort_records "status" so l).Perm l
      ∧ (sort_records "status" so l).Pairwise
          (fun a b => keyLe (so == "desc") (·.status) a b = true)
      ∧ (∀ a b : ContainerRecord, a.status = b.status →
          [a, b].Sublist l → [a, b].Sublist (sort_records "status" so l)))
    ∧ sort_records "cpu" "desc" [exRec "a" 10, exRec "b" 50, exRec "c" 30]
        = [exRec "b" 50, exRec "c" 30, exRec "a" 10] := by
  refine ⟨?_, ?_, ?_, ?_, sort_example⟩
  · intro so l
    rw [sort_records_cpu]
    exact mergeSort_keyLe_spec (so == "desc") (fun r => r.cpu_percent) l
  · intro so l
    rw [sort_records_memory]
    exact mergeSort_keyLe_spec (so == "desc") (fun r => r.memory_percent) l
  · intro so l
    rw [sort_records_name]
    exact mergeSort_keyLe_spec (so == "desc") (fun r => r.name) l
  · intro so l
    rw [sort_records_status]
    exact mergeSort_keyLe_spec (so == "desc") (fun r => r.status) l

/-- C8 witness: two records with equal CPU keys keep their input order
after an ascending CPU sort of the two-element list containing them. -/
theorem sorting_spec_witness :
    [exRec "x" 7, exRec "y" 7].Sublist
      (sort_records "cpu" "asc" [exRec "x" 7, exRec "y" 7]) :=
  (sorting_spec.1 "asc" [exRec "x" 7, exRec "y" 7]).2.2 (exRec "x" 7) (exRec "y" 7)
    rfl (List.Sublist.refl _)

end WebhookPush
